import Mathlib

/-!
Verification of the subscription / payment lifecycle slice of the
Dorwel backend against its specification.

The JavaScript source is shallowly embedded: Mongoose documents become
Lean structures, collections become lists inside an explicit `DB` state,
`new Date()` becomes an explicit `now : Int` parameter (milliseconds),
JS numbers used as integers become `Int`, and methods that can throw
`APIError` return `Except ApiErr _`.  Saving a Mongoose document that
was fetched before a concurrent write is modelled as Mongoose persists
it: only the modified paths are written, and an array `push` is written
as an atomic append to the stored record (`pushHistory`).
-/

namespace Dorwel

/-- Error taxonomy of `APIError` as used by the embedded methods,
named after the http statuses in the source. -/
inductive ApiErr where
  | notFound
  | badRequest
  | conflict
  | authError
  | transientError
deriving Repr, DecidableEq

instance : DecidableEq (Except ApiErr Unit) := fun x y =>
  match x, y with
  | .ok (), .ok () => .isTrue rfl
  | .error a, .error b =>
    match decEq a b with
    | .isTrue h => .isTrue (h ▸ rfl)
    | .isFalse h => .isFalse (fun he => h (Except.error.inj he))
  | .ok _, .error _ => .isFalse (fun he => Except.noConfusion he)
  | .error _, .ok _ => .isFalse (fun he => Except.noConfusion he)

/-- One per-resource usage counter pair from `subscriptionSchema.usage`:
`{ current, limit }`, with `limit = -1` meaning unlimited. -/
structure UsageEntry where
  current : Int
  limit : Int
deriving Repr, DecidableEq

/-- The fixed six-field `usage` object of `subscriptionSchema`. -/
structure Usage where
  teams : UsageEntry
  users : UsageEntry
  projects : UsageEntry
  clients : UsageEntry
  leads : UsageEntry
  storage : UsageEntry
deriving Repr, DecidableEq

/-- JS property access `subscription.usage[resourceType]`: defined for
the six schema keys, `undefined` (`none`) otherwise. -/
def Usage.get? (u : Usage) : String → Option UsageEntry
  | "teams" => some u.teams
  | "users" => some u.users
  | "projects" => some u.projects
  | "clients" => some u.clients
  | "leads" => some u.leads
  | "storage" => some u.storage
  | _ => none

/-- JS property write `subscription.usage[resourceType] = e` for the six
schema keys; a non-schema key writes nothing observable. -/
def Usage.set (u : Usage) (rt : String) (e : UsageEntry) : Usage :=
  match rt with
  | "teams" => { u with teams := e }
  | "users" => { u with users := e }
  | "projects" => { u with projects := e }
  | "clients" => { u with clients := e }
  | "leads" => { u with leads := e }
  | "storage" => { u with storage := e }
  | _ => u

/-- The six usage entries of a subscription, for stating invariants. -/
def Usage.entries (u : Usage) : List UsageEntry :=
  [u.teams, u.users, u.projects, u.clients, u.leads, u.storage]

/-- The six feature flags of `subscriptionSchema.features`. -/
structure Features where
  aiEstimates : Bool
  advancedAnalytics : Bool
  customBranding : Bool
  prioritySupport : Bool
  apiAccess : Bool
  whiteLabel : Bool
deriving Repr, DecidableEq

/-- One entry of the `history` array of `subscriptionSchema`
(`{ action, date, details }`; the date is carried by the ambient `now`
and omitted from the record, it plays no role in any claim). -/
structure HistoryEntry where
  action : String
  details : String
deriving Repr, DecidableEq

/-- A `subscriptions` document (the fields the embedded methods read or
write). -/
structure Subscription where
  id : Nat
  userId : Nat
  razorpaySubscriptionId : String
  status : String
  usage : Usage
  features : Features
  history : List HistoryEntry
  nextBillingDate : Option Int
  endDate : Option Int
  cancelledAt : Option Int
deriving Repr, DecidableEq

/-- A `payments` document (the fields the embedded methods read or
write). -/
structure Payment where
  id : Nat
  userId : Nat
  subscriptionId : Option Nat
  razorpayPaymentId : String
  razorpayOrderId : String
  amount : Int
  currency : String
  status : String
  method : String
  paidAt : Option Int
  description : String
  notes : List String
deriving Repr, DecidableEq

/-- A `users` document (the subscription-related fields only). -/
structure UserRec where
  id : Nat
  subscriptionStatus : String
  subscriptionExpiry : Option Int
deriving Repr, DecidableEq

/-- A `notifications` document as created by the webhook handlers. -/
structure Notif where
  title : String
  message : String
  ntype : String
  recipient : Nat
deriving Repr, DecidableEq

/-- The persistent state: the four collections the webhook and
subscription methods touch. -/
structure DB where
  subscriptions : List Subscription
  payments : List Payment
  users : List UserRec
  notifications : List Notif
deriving Repr, DecidableEq

/-! ### Collection primitives (findById / findOne / save / create) -/

/-- `Subscription.findById`. -/
def findSubscription (db : DB) (i : Nat) : Option Subscription :=
  db.subscriptions.find? (fun t => t.id == i)

/-- `Subscription.findOne({ razorpaySubscriptionId })`. -/
def findSubByRzpId (db : DB) (rzp : String) : Option Subscription :=
  db.subscriptions.find? (fun t => t.razorpaySubscriptionId == rzp)

/-- `subscription.save()`: write the document back by id. -/
def saveSubscription (db : DB) (s : Subscription) : DB :=
  { db with subscriptions :=
      db.subscriptions.map (fun t => if t.id == s.id then s else t) }

/-- `Payment.findById`. -/
def findPayment (db : DB) (i : Nat) : Option Payment :=
  db.payments.find? (fun t => t.id == i)

/-- `Payment.findOne({ razorpayPaymentId })`. -/
def findPaymentByRzpId (db : DB) (rzp : String) : Option Payment :=
  db.payments.find? (fun t => t.razorpayPaymentId == rzp)

/-- `payment.save()`: write the document back by id. -/
def savePayment (db : DB) (p : Payment) : DB :=
  { db with payments :=
      db.payments.map (fun t => if t.id == p.id then p else t) }

/-- `Payment.create`: insert a fresh document. -/
def addPayment (db : DB) (p : Payment) : DB :=
  { db with payments := db.payments ++ [p] }

/-- `User.findById`. -/
def findUser (db : DB) (i : Nat) : Option UserRec :=
  db.users.find? (fun t => t.id == i)

/-- `user.save()`: write the document back by id. -/
def saveUser (db : DB) (u : UserRec) : DB :=
  { db with users := db.users.map (fun t => if t.id == u.id then u else t) }

/-- `Notification.createNotification`: insert a fresh document. -/
def addNotification (db : DB) (n : Notif) : DB :=
  { db with notifications := db.notifications ++ [n] }

/-- The usage entry of one resource type of one subscription, as stored. -/
def subUsage (db : DB) (i : Nat) (rt : String) : Option UsageEntry :=
  (findSubscription db i).bind (fun s => s.usage.get? rt)

/-- The stored status of a subscription. -/
def subStatus (db : DB) (i : Nat) : Option String :=
  (findSubscription db i).map (fun s => s.status)

/-- The stored history of a subscription. -/
def subHistory (db : DB) (i : Nat) : Option (List HistoryEntry) :=
  (findSubscription db i).map (fun s => s.history)

/-- Number of stored payments carrying a given `razorpayPaymentId`. -/
def countPayments (db : DB) (rzp : String) : Nat :=
  (db.payments.filter (fun p => p.razorpayPaymentId == rzp)).length

/-! ### SubscriptionClass methods (src/unnamed/part_010) -/

/-- The record `updateSubscriptionStatus` writes: status overwritten,
one history entry appended (action cancelled only for a cancelled
target, activated otherwise), `cancelledAt` stamped when cancelling. -/
def statusUpdatedSub (sub : Subscription) (now : Int) (status : String)
    (details : Option String) : Subscription :=
  { sub with
      status := status
      history := sub.history ++
        [{ action := if status == "cancelled" then "cancelled" else "activated"
           details := details.getD
             ("Status changed from " ++ sub.status ++ " to " ++ status) }]
      cancelledAt := if status == "cancelled" then some now else sub.cancelledAt }

/-- `SubscriptionClass.updateSubscriptionStatus(subscriptionId, status,
details)`: load, overwrite the status, push one history entry whose
action is `cancelled` for a cancelled target and `activated` for every
other target, stamp `cancelledAt` when cancelling, save.  The source
performs no transition validation of any kind. -/
def updateSubscriptionStatus (db : DB) (now : Int) (subscriptionId : Nat)
    (status : String) (details : Option String) : Except ApiErr DB :=
  match findSubscription db subscriptionId with
  | none => .error .notFound
  | some sub => .ok (saveSubscription db (statusUpdatedSub sub now status details))

/-- `SubscriptionClass.updateUsage(subscriptionId, resourceType,
increment)`: load, add `increment` to `usage[resourceType].current` when
the resource type exists (no bound check, no floor), save. -/
def updateUsage (db : DB) (subscriptionId : Nat) (resourceType : String)
    (increment : Int) : Except ApiErr DB :=
  match findSubscription db subscriptionId with
  | none => .error .notFound
  | some sub =>
    match sub.usage.get? resourceType with
    | none => .ok db
    | some resource =>
      .ok (saveSubscription db
        { sub with usage := sub.usage.set resourceType ⟨resource.current + increment, resource.limit⟩ })

/-- Result object of `checkUsageLimit`: `{ allowed, reason }`, plus
`current`/`limit` only on the limit-exceeded branch. -/
structure CheckResult where
  allowed : Bool
  reason : String
  current : Option Int
  limit : Option Int
deriving Repr, DecidableEq

/-- `SubscriptionClass.checkUsageLimit(subscriptionId, resourceType)`:
unlimited when `limit === -1`, allowed while `current < limit`, denied
with `{ current, limit }` otherwise. -/
def checkUsageLimit (db : DB) (subscriptionId : Nat) (resourceType : String) :
    CheckResult :=
  match findSubscription db subscriptionId with
  | none => { allowed := false, reason := "Subscription not found",
              current := none, limit := none }
  | some sub =>
    match sub.usage.get? resourceType with
    | none => { allowed := false, reason := "Resource type not found",
                current := none, limit := none }
    | some resource =>
      if resource.limit == -1 then
        { allowed := true, reason := "Unlimited", current := none, limit := none }
      else if resource.current < resource.limit then
        { allowed := true, reason := "Within limit", current := none, limit := none }
      else
        { allowed := false, reason := "Usage limit exceeded",
          current := some resource.current, limit := some resource.limit }

/-- Outcome of a reservation: either allowed carrying the new counter
value (read back from the record `updateUsage` returns), denied carrying
`{ current, limit }`, or unavailable with the reason string of
`checkUsageLimit`. -/
inductive ReserveResult where
  | allowed (newCurrent : Int)
  | denied (current : Int) (limit : Int)
  | notAvailable (reason : String)
deriving Repr, DecidableEq

/-- `checkAndReserve`, as the spec describes its realization:
`checkUsageLimit` followed, when allowed, by `updateUsage` with the
default amount 1 (`checkUsageLimit` takes no amount, so the realized
reservation is unit-amount). -/
def checkAndReserve (db : DB) (subscriptionId : Nat) (resourceType : String) :
    ReserveResult × DB :=
  let c := checkUsageLimit db subscriptionId resourceType
  if c.allowed then
    match updateUsage db subscriptionId resourceType 1 with
    | .ok db' =>
      match subUsage db' subscriptionId resourceType with
      | some r => (.allowed r.current, db')
      | none => (.notAvailable "Resource type not found", db')
    | .error _ => (.notAvailable "Subscription not found", db)
  else
    match c.current, c.limit with
    | some cur, some lim => (.denied cur lim, db)
    | _, _ => (.notAvailable c.reason, db)

/-- `release(subscriptionId, resourceType)` as the source realizes it:
`updateUsage` with increment -1 (there is no separate release method). -/
def release (db : DB) (subscriptionId : Nat) (resourceType : String) :
    Except ApiErr DB :=
  updateUsage db subscriptionId resourceType (-1)

/-- One usage-ledger operation, for stating invariants over sequences. -/
inductive UsageOp where
  | reserve (subscriptionId : Nat) (resourceType : String)
  | rel (subscriptionId : Nat) (resourceType : String)
deriving Repr, DecidableEq

/-- Apply one usage operation to the state, discarding the per-call
result (a failed release leaves the state as it was). -/
def applyUsageOp (db : DB) : UsageOp → DB
  | .reserve i rt => (checkAndReserve db i rt).2
  | .rel i rt =>
    match release db i rt with
    | .ok db' => db'
    | .error _ => db

/-- The ledger invariant of the spec: every counter with a finite limit
is at or below that limit. -/
def usageInv (db : DB) : Prop :=
  ∀ s ∈ db.subscriptions, ∀ e ∈ s.usage.entries, e.limit = -1 ∨ e.current ≤ e.limit

instance : DecidablePred usageInv := by
  intro db
  unfold usageInv
  infer_instance

/-! ### UserClass and PaymentClass methods (src/src/models) -/

/-- The record `UserClass.updateSubscriptionStatus` writes: status
overwritten, expiry overwritten only when an expiry date is passed. -/
def userWithSubscriptionStatus (u : UserRec) (status : String)
    (expiryDate : Option Int) : UserRec :=
  match expiryDate with
  | some e => { u with subscriptionStatus := status, subscriptionExpiry := some e }
  | none => { u with subscriptionStatus := status }

/-- `UserClass.updateSubscriptionStatus(userId, status, expiryDate)`:
load, overwrite `subscriptionStatus`, overwrite `subscriptionExpiry`
only when an expiry date is passed, save; NotFound when the user is
missing. -/
def userUpdateSubscriptionStatus (db : DB) (userId : Nat) (status : String)
    (expiryDate : Option Int) : Except ApiErr DB :=
  match findUser db userId with
  | none => .error .notFound
  | some u => .ok (saveUser db (userWithSubscriptionStatus u status expiryDate))

/-- `PaymentClass.updatePaymentStatus(paymentId, status, additionalData)`
for the shape the webhook handlers use: sets the status, stamps `paidAt`
with now for a captured status, then `Object.assign`s the additional
data (which overrides `paidAt` with the gateway timestamp and the
payment method when given), and pushes one status-change note. -/
def updatePaymentStatus (db : DB) (now : Int) (paymentId : Nat)
    (status : String) (extraPaidAt : Option Int) (extraMethod : Option String) :
    Except ApiErr DB :=
  match findPayment db paymentId with
  | none => .error .notFound
  | some p =>
    let p1 := { p with
      status := status
      paidAt := if status == "captured" then some now else p.paidAt }
    let p2 := { p1 with
      paidAt := match extraPaidAt with | some e => some e | none => p1.paidAt
      method := extraMethod.getD p1.method }
    .ok (savePayment db { p2 with
      notes := p2.notes ++ ["Payment status changed from " ++ p.status ++ " to " ++ status] })

/-- `payment.addNote(content)`: append one note to the stored record. -/
def addPaymentNote (db : DB) (paymentId : Nat) (content : String) : DB :=
  match findPayment db paymentId with
  | none => db
  | some p => savePayment db { p with notes := p.notes ++ [content] }

/-- Append one history entry to the stored subscription record: models
saving a previously-fetched document whose only modified path is a
`history.push` (Mongoose writes the push atomically to the stored
record). -/
def pushHistory (db : DB) (i : Nat) (e : HistoryEntry) : DB :=
  match findSubscription db i with
  | none => db
  | some s => saveSubscription db { s with history := s.history ++ [e] }

/-! ### RazorpayWebhookService (src/src/services/razorpayWebhookService.js)

Each handler returns the persisted state together with its outcome:
every state write performed before a failing step stays persisted, and
the error is rethrown by `handleWebhook` (its catch block logs and
rethrows).  The awaited `Notification.createNotification` call is the
outbound user notification; a `notifyFails` flag models its failure,
in which case the handler aborts with a transient error after the
writes that precede it. -/

/-- Payload of `payment.*` events: `data.payment`. -/
structure PaymentEventData where
  paymentId : String
  amount : Int
  method : String
  createdAt : Int
deriving Repr, DecidableEq

/-- Payload of `subscription.activated`: `data.subscription`. -/
structure SubEventData where
  subId : String
  currentEnd : Int
deriving Repr, DecidableEq

/-- Payload of `subscription.charged`: `data.subscription` plus
`data.payment`. -/
structure ChargedEventData where
  subId : String
  currentEnd : Int
  paymentId : String
  orderId : String
  amount : Int
  currency : String
  method : String
  createdAt : Int
deriving Repr, DecidableEq

/-- `handlePaymentCaptured(data)`: look the payment up by its external
id; silently return on a miss (orphan event); otherwise mark it
captured, add a note, and create a user notification. -/
def handlePaymentCaptured (db : DB) (now : Int) (d : PaymentEventData)
    (notifyFails : Bool) : DB × Except ApiErr Unit :=
  match findPaymentByRzpId db d.paymentId with
  | none => (db, .ok ())
  | some p =>
    match updatePaymentStatus db now p.id "captured" (some d.createdAt) (some d.method) with
    | .error e => (db, .error e)
    | .ok db1 =>
      let db2 := addPaymentNote db1 p.id "Payment captured successfully"
      if notifyFails then (db2, .error .transientError)
      else
        (addNotification db2
          { title := "Payment Successful"
            message := "Your payment of " ++ toString (d.amount / 100) ++ " has been processed successfully"
            ntype := "success"
            recipient := p.userId }, .ok ())

/-- The notification `handleSubscriptionActivated` creates. -/
def activatedNotif (sub : Subscription) : Notif :=
  { title := "Subscription Activated"
    message := "Your subscription has been activated successfully"
    ntype := "success"
    recipient := sub.userId }

/-- `handleSubscriptionActivated(data)`: look the subscription up by its
external id; silently return on a miss; otherwise set the status to
active through `updateSubscriptionStatus` (which pushes one history
entry), set the user's status and expiry from the payload period end,
push a second activated history entry on the previously-fetched record,
and create a notification.  The subscription's own `nextBillingDate` is
never written. -/
def handleSubscriptionActivated (db : DB) (now : Int) (d : SubEventData)
    (notifyFails : Bool) : DB × Except ApiErr Unit :=
  match findSubByRzpId db d.subId with
  | none => (db, .ok ())
  | some sub =>
    match updateSubscriptionStatus db now sub.id "active" none with
    | .error e => (db, .error e)
    | .ok db1 =>
      match userUpdateSubscriptionStatus db1 sub.userId "active" (some d.currentEnd) with
      | .error e => (db1, .error e)
      | .ok db2 =>
        let db3 := pushHistory db2 sub.id { action := "activated", details := "Subscription activated" }
        if notifyFails then (db3, .error .transientError)
        else (addNotification db3 (activatedNotif sub), .ok ())

/-- The subscription record `handleSubscriptionCharged` writes: billing
dates moved to the payload period end, one renewed history entry
appended. -/
def chargeRenewedSub (sub : Subscription) (d : ChargedEventData) : Subscription :=
  { sub with
      nextBillingDate := some d.currentEnd
      endDate := some d.currentEnd
      history := sub.history ++
        [{ action := "renewed"
           details := "Subscription renewed. Payment: " ++ toString (d.amount / 100) }] }

/-- The Payment record `handleSubscriptionCharged` creates when none
with the payload payment id exists yet. -/
def chargePaymentRec (sub : Subscription) (d : ChargedEventData) (freshId : Nat) : Payment :=
  { id := freshId
    userId := sub.userId
    subscriptionId := some sub.id
    razorpayPaymentId := d.paymentId
    razorpayOrderId := d.orderId
    amount := d.amount / 100
    currency := d.currency
    status := "captured"
    method := d.method
    paidAt := some d.createdAt
    description := "Recurring subscription payment"
    notes := [] }

/-- The notification `handleSubscriptionCharged` creates on every
delivery. -/
def chargeNotif (sub : Subscription) (d : ChargedEventData) : Notif :=
  { title := "Subscription Renewed"
    message := "Your subscription has been renewed. Payment of " ++ toString (d.amount / 100) ++ " processed."
    ntype := "success"
    recipient := sub.userId }

/-- `handleSubscriptionCharged(data)`: look the subscription up by its
external id; silently return on a miss; otherwise move the billing
dates to the payload period end and push a renewed history entry, set
the user's status and expiry, create a Payment record only when no
Payment with that `razorpayPaymentId` exists yet, and create a
notification (the notification is created on every delivery, outside
the existing-payment guard). -/
def handleSubscriptionCharged (db : DB) (_now : Int) (d : ChargedEventData)
    (notifyFails : Bool) : DB × Except ApiErr Unit :=
  match findSubByRzpId db d.subId with
  | none => (db, .ok ())
  | some sub =>
    let db1 := saveSubscription db (chargeRenewedSub sub d)
    match userUpdateSubscriptionStatus db1 sub.userId "active" (some d.currentEnd) with
    | .error e => (db1, .error e)
    | .ok db2 =>
      let db3 :=
        match findPaymentByRzpId db2 d.paymentId with
        | some _ => db2
        | none => addPayment db2 (chargePaymentRec sub d db2.payments.length)
      if notifyFails then (db3, .error .transientError)
      else (addNotification db3 (chargeNotif sub d), .ok ())

/-- The notification `handleSubscriptionCancelled` creates. -/
def cancelledNotif (sub : Subscription) : Notif :=
  { title := "Subscription Cancelled"
    message := "Your subscription has been cancelled. You can still use the service until the current billing period ends."
    ntype := "warning"
    recipient := sub.userId }

/-- `handleSubscriptionCancelled(data)`: look the subscription up by its
external id; silently return on a miss; otherwise set the status to
cancelled through `updateSubscriptionStatus`, set the user's status,
push a second cancelled history entry on the previously-fetched record,
and create a notification. -/
def handleSubscriptionCancelled (db : DB) (now : Int) (d : SubEventData)
    (notifyFails : Bool) : DB × Except ApiErr Unit :=
  match findSubByRzpId db d.subId with
  | none => (db, .ok ())
  | some sub =>
    match updateSubscriptionStatus db now sub.id "cancelled" none with
    | .error e => (db, .error e)
    | .ok db1 =>
      match userUpdateSubscriptionStatus db1 sub.userId "cancelled" none with
      | .error e => (db1, .error e)
      | .ok db2 =>
        let db3 := pushHistory db2 sub.id { action := "cancelled", details := "Subscription cancelled via Razorpay" }
        if notifyFails then (db3, .error .transientError)
        else (addNotification db3 (cancelledNotif sub), .ok ())

/-- A routed webhook event.  The embedding covers the handlers the
claims reference; the remaining event types of the switch follow the
same lookup-guard shape, and an event name outside the switch falls to
the logged default branch, modelled by `other`. -/
inductive WebhookEvent where
  | paymentCaptured (d : PaymentEventData)
  | subscriptionActivated (d : SubEventData)
  | subscriptionCharged (d : ChargedEventData)
  | subscriptionCancelled (d : SubEventData)
  | other (name : String)
deriving Repr, DecidableEq

/-- `handleWebhook(event, data)`: route by event type; unhandled event
types are only logged; a handler error is logged and rethrown. -/
def handleWebhook (db : DB) (now : Int) (ev : WebhookEvent)
    (notifyFails : Bool) : DB × Except ApiErr Unit :=
  match ev with
  | .paymentCaptured d => handlePaymentCaptured db now d notifyFails
  | .subscriptionActivated d => handleSubscriptionActivated db now d notifyFails
  | .subscriptionCharged d => handleSubscriptionCharged db now d notifyFails
  | .subscriptionCancelled d => handleSubscriptionCancelled db now d notifyFails
  | .other _ => (db, .ok ())

/-! ### Signature verification (src/src/services/razorpayService.js) -/

/-- `RazorpayService.verifyWebhookSignature(body, signature)`: compute
the HMAC-SHA256 hex digest of the raw body under the webhook secret and
compare it to the received signature with JavaScript string equality.
The digest itself is computed by the node crypto library, taken here as
a parameter `hmacSha256Hex`. -/
def verifyWebhookSignature (hmacSha256Hex : String → String → String)
    (secret body signature : String) : Bool :=
  hmacSha256Hex secret body == signature

/-- Syntactic fact of the source: the comparison on line 221 of
razorpayService.js is the plain string operator, not
`crypto.timingSafeEqual`; the verification is not a constant-time
comparison. -/
def verifyWebhookSignature_comparesConstantTime : Bool := false

/-- Modelled from the spec: the razorpay webhook HTTP endpoint
(`POST /api/v1/webhooks/razorpay`, §4.3 Step 1) is not under src/ (only
the service methods it calls are).  Per the spec it verifies the
signature over the raw payload and, on mismatch, answers AuthError with
no further processing and no mutation; on a match it dispatches to
`handleWebhook`. -/
def webhookIngest (hmacSha256Hex : String → String → String)
    (secret : String) (db : DB) (now : Int) (ev : WebhookEvent)
    (rawBody signature : String) (notifyFails : Bool) :
    DB × Except ApiErr Unit :=
  if verifyWebhookSignature hmacSha256Hex secret rawBody signature then
    handleWebhook db now ev notifyFails
  else
    (db, .error .authError)

/-! ### Entitlement resolver (§4.5) -/

/-- `SubscriptionClass.getUserActiveSubscription(userId)`: the first
stored subscription of the user whose status is active or trialing. -/
def getUserActiveSubscription (db : DB) (userId : Nat) : Option Subscription :=
  db.subscriptions.find? (fun s =>
    s.userId == userId && (s.status == "active" || s.status == "trialing"))

/-- An entitlement: the effective feature flags and quota counters. -/
structure Entitlement where
  features : Features
  quotas : Usage
deriving Repr, DecidableEq

/-- Modelled from the spec: the hard-coded free-tier constant of the
Entitlement Resolver (§4.5) is not under src/.  The spec fixes only
that it is a constant independent of the Plan Registry; its contents
here are all feature flags off and the schema's default quota limits. -/
def FREE_TIER : Entitlement :=
  { features :=
      { aiEstimates := false, advancedAnalytics := false, customBranding := false
        prioritySupport := false, apiAccess := false, whiteLabel := false }
    quotas :=
      { teams := ⟨0, 1⟩, users := ⟨0, 5⟩, projects := ⟨0, 10⟩
        clients := ⟨0, 50⟩, leads := ⟨0, 100⟩, storage := ⟨0, 5⟩ } }

/-- Whether a subscription is past its end date (no end date means not
past). -/
def pastEndDate (s : Subscription) (now : Int) : Bool :=
  match s.endDate with
  | none => false
  | some e => decide (e < now)

/-- Modelled from the spec: `getEntitlement(userId)` (§4.5) is not under
src/; it is built on the source's `getUserActiveSubscription`.  If the
user has a subscription with status active or trialing that is not past
its end date, return its stored features and quota snapshot; otherwise
return the free-tier constant. -/
def getEntitlement (db : DB) (now : Int) (userId : Nat) : Entitlement :=
  match getUserActiveSubscription db userId with
  | none => FREE_TIER
  | some sub =>
    if pastEndDate sub now then FREE_TIER
    else { features := sub.features, quotas := sub.usage }

/-! ### Concrete fixtures used by scenario parts and witnesses -/

/-- A usage object matching the scenario of the spec: `projects` has
limit 2 and all counters start at 0. -/
def demoUsage : Usage :=
  { teams := ⟨0, 1⟩, users := ⟨0, 5⟩, projects := ⟨0, 2⟩
    clients := ⟨0, 50⟩, leads := ⟨0, 100⟩, storage := ⟨0, 5⟩ }

/-- A trialing subscription fixture. -/
def demoSub : Subscription :=
  { id := 1
    userId := 7
    razorpaySubscriptionId := "sub_demo"
    status := "trialing"
    usage := demoUsage
    features := FREE_TIER.features
    history := [{ action := "created", details := "Subscription created" }]
    nextBillingDate := none
    endDate := none
    cancelledAt := none }

/-- The owning user fixture. -/
def demoUser : UserRec := { id := 7, subscriptionStatus := "trial", subscriptionExpiry := none }

/-- A database holding the trialing subscription and its user. -/
def demoDB : DB :=
  { subscriptions := [demoSub], payments := [], users := [demoUser], notifications := [] }

/-- The same database with the subscription already cancelled. -/
def cancelledDB : DB :=
  { subscriptions := [{ demoSub with status := "cancelled" }]
    payments := []
    users := [demoUser]
    notifications := [] }

/-- An empty database, the orphan-event witness state. -/
def emptyDB : DB :=
  { subscriptions := [], payments := [], users := [], notifications := [] }

/-- A charged-event payload fixture for replay scenarios. -/
def demoCharge : ChargedEventData :=
  { subId := "sub_demo", currentEnd := 1700, paymentId := "pay_X", orderId := "order_X"
    amount := 49900, currency := "INR", method := "card", createdAt := 1600 }

/-! ### Helper lemmas -/

/-- Updating, by key, the record a `find?` located moves the `find?`
result to the updated record, provided the predicate accepts it. -/
theorem find?_map_update_pred {α κ : Type} [BEq κ] [LawfulBEq κ]
    (p : α → Bool) (key : α → κ) (l : List α) (x y : α)
    (h : l.find? p = some x) (hk : key y = key x) (hpy : p y = true) :
    (l.map (fun t => if key t == key y then y else t)).find? p = some y := by
  induction l with
  | nil => simp at h
  | cons a tl ih =>
    by_cases hpa : p a = true
    · rw [List.find?_cons_of_pos tl hpa] at h
      have hxa : a = x := by injection h
      subst hxa
      have hcond : (key a == key y) = true := by
        rw [hk]
        simp
      simp only [List.map_cons, if_pos hcond]
      exact List.find?_cons_of_pos _ hpy
    · rw [List.find?_cons_of_neg tl hpa] at h
      simp only [List.map_cons]
      by_cases hc : (key a == key y) = true
      · rw [if_pos hc]
        exact List.find?_cons_of_pos _ hpy
      · rw [if_neg hc]
        rw [List.find?_cons_of_neg _ hpa]
        exact ih h

/-- Appending a record the predicate accepts to a list on which `find?`
fails makes `find?` return it. -/
theorem find?_append_single {α : Type} (p : α → Bool) (l : List α) (x : α)
    (h : l.find? p = none) (hx : p x = true) :
    (l ++ [x]).find? p = some x := by
  rw [List.find?_append, h]
  simp [hx]

theorem saveSubscription_payments (db : DB) (s : Subscription) :
    (saveSubscription db s).payments = db.payments := rfl

theorem saveSubscription_users (db : DB) (s : Subscription) :
    (saveSubscription db s).users = db.users := rfl

theorem saveSubscription_notifications (db : DB) (s : Subscription) :
    (saveSubscription db s).notifications = db.notifications := rfl

theorem saveUser_payments (db : DB) (u : UserRec) :
    (saveUser db u).payments = db.payments := rfl

theorem saveUser_subscriptions (db : DB) (u : UserRec) :
    (saveUser db u).subscriptions = db.subscriptions := rfl

theorem addNotification_payments (db : DB) (n : Notif) :
    (addNotification db n).payments = db.payments := rfl

theorem addNotification_subscriptions (db : DB) (n : Notif) :
    (addNotification db n).subscriptions = db.subscriptions := rfl

theorem addPayment_payments (db : DB) (p : Payment) :
    (addPayment db p).payments = db.payments ++ [p] := rfl

theorem addPayment_subscriptions (db : DB) (p : Payment) :
    (addPayment db p).subscriptions = db.subscriptions := rfl

theorem pushHistory_payments (db : DB) (i : Nat) (e : HistoryEntry) :
    (pushHistory db i e).payments = db.payments := by
  unfold pushHistory
  split <;> rfl

theorem userUpdate_payments (db : DB) (i : Nat) (st : String) (e : Option Int)
    (db' : DB) (h : userUpdateSubscriptionStatus db i st e = .ok db') :
    db'.payments = db.payments := by
  unfold userUpdateSubscriptionStatus at h
  split at h
  · exact absurd h (by simp)
  · injection h with h
    subst h
    rfl

theorem userUpdate_subscriptions (db : DB) (i : Nat) (st : String) (e : Option Int)
    (db' : DB) (h : userUpdateSubscriptionStatus db i st e = .ok db') :
    db'.subscriptions = db.subscriptions := by
  unfold userUpdateSubscriptionStatus at h
  split at h
  · exact absurd h (by simp)
  · injection h with h
    subst h
    rfl

theorem findSubscription_addNotification (db : DB) (n : Notif) (i : Nat) :
    findSubscription (addNotification db n) i = findSubscription db i := rfl

theorem findSubscription_saveUser (db : DB) (u : UserRec) (i : Nat) :
    findSubscription (saveUser db u) i = findSubscription db i := rfl

theorem findSubscription_addPayment (db : DB) (p : Payment) (i : Nat) :
    findSubscription (addPayment db p) i = findSubscription db i := rfl

theorem findUser_addNotification (db : DB) (n : Notif) (i : Nat) :
    findUser (addNotification db n) i = findUser db i := rfl

theorem findUser_saveSubscription (db : DB) (s : Subscription) (i : Nat) :
    findUser (saveSubscription db s) i = findUser db i := rfl

theorem findUser_addPayment (db : DB) (p : Payment) (i : Nat) :
    findUser (addPayment db p) i = findUser db i := rfl

theorem findPaymentByRzpId_saveSubscription (db : DB) (s : Subscription) (r : String) :
    findPaymentByRzpId (saveSubscription db s) r = findPaymentByRzpId db r := rfl

theorem findPaymentByRzpId_saveUser (db : DB) (u : UserRec) (r : String) :
    findPaymentByRzpId (saveUser db u) r = findPaymentByRzpId db r := rfl

theorem findPaymentByRzpId_addNotification (db : DB) (n : Notif) (r : String) :
    findPaymentByRzpId (addNotification db n) r = findPaymentByRzpId db r := rfl

theorem findSubByRzpId_saveUser (db : DB) (u : UserRec) (r : String) :
    findSubByRzpId (saveUser db u) r = findSubByRzpId db r := rfl

theorem findSubByRzpId_addNotification (db : DB) (n : Notif) (r : String) :
    findSubByRzpId (addNotification db n) r = findSubByRzpId db r := rfl

theorem findSubByRzpId_addPayment (db : DB) (p : Payment) (r : String) :
    findSubByRzpId (addPayment db p) r = findSubByRzpId db r := rfl

theorem findSubscription_save (db : DB) (i : Nat) (sub s' : Subscription)
    (h : findSubscription db i = some sub) (hid : s'.id = sub.id) :
    findSubscription (saveSubscription db s') i = some s' := by
  have h' : db.subscriptions.find? (fun t => t.id == i) = some sub := h
  have hfs : (sub.id == i) = true :=
    @List.find?_some Subscription (fun t => t.id == i) sub _ h'
  have hpy : (s'.id == i) = true := by
    rw [hid]
    exact hfs
  exact find?_map_update_pred _ Subscription.id _ sub s' h' hid hpy

theorem findSubByRzpId_save (db : DB) (rzp : String) (sub s' : Subscription)
    (h : findSubByRzpId db rzp = some sub) (hid : s'.id = sub.id)
    (hr : s'.razorpaySubscriptionId = sub.razorpaySubscriptionId) :
    findSubByRzpId (saveSubscription db s') rzp = some s' := by
  have h' : db.subscriptions.find? (fun t => t.razorpaySubscriptionId == rzp) = some sub := h
  have hfs : (sub.razorpaySubscriptionId == rzp) = true :=
    @List.find?_some Subscription (fun t => t.razorpaySubscriptionId == rzp) sub _ h'
  have hpy : (s'.razorpaySubscriptionId == rzp) = true := by
    rw [hr]
    exact hfs
  exact find?_map_update_pred _ Subscription.id _ sub s' h' hid hpy

theorem findUser_save (db : DB) (i : Nat) (u u' : UserRec)
    (h : findUser db i = some u) (hid : u'.id = u.id) :
    findUser (saveUser db u') i = some u' := by
  have h' : db.users.find? (fun t => t.id == i) = some u := h
  have hfs : (u.id == i) = true :=
    @List.find?_some UserRec (fun t => t.id == i) u _ h'
  have hpy : (u'.id == i) = true := by
    rw [hid]
    exact hfs
  exact find?_map_update_pred _ UserRec.id _ u u' h' hid hpy

theorem Usage.get?_set_self (u : Usage) (rt : String) (e0 e : UsageEntry)
    (h : u.get? rt = some e0) : (u.set rt e).get? rt = some e := by
  unfold Usage.get? at h
  split at h <;> simp_all [Usage.set, Usage.get?]

theorem Usage.get?_mem (u : Usage) (rt : String) (r : UsageEntry)
    (h : u.get? rt = some r) : r ∈ u.entries := by
  unfold Usage.get? at h
  split at h <;> simp_all [Usage.entries]

theorem Usage.entries_set (u : Usage) (rt : String) (e x : UsageEntry)
    (hx : x ∈ (u.set rt e).entries) : x ∈ u.entries ∨ x = e := by
  unfold Usage.set at hx
  split at hx <;> (simp [Usage.entries] at hx ⊢; tauto)

theorem countPayments_append (db : DB) (p : Payment) (pid : String)
    (hp : (p.razorpayPaymentId == pid) = true) :
    countPayments (addPayment db p) pid = countPayments db pid + 1 := by
  simp [countPayments, addPayment, List.filter_append, hp]

theorem usageInv_save (db : DB) (s : Subscription) (hdb : usageInv db)
    (hs : ∀ e ∈ s.usage.entries, e.limit = -1 ∨ e.current ≤ e.limit) :
    usageInv (saveSubscription db s) := by
  intro t ht e he
  rcases List.mem_map.mp ht with ⟨a, ha, hat⟩
  by_cases hid : (a.id == s.id) = true
  · rw [if_pos hid] at hat
    subst hat
    exact hs e he
  · rw [if_neg hid] at hat
    subst hat
    exact hdb a ha e he

theorem usageInv_updateUsage (db : DB) (i : Nat) (rt : String) (inc : Int)
    (db' : DB) (h : updateUsage db i rt inc = .ok db') (hdb : usageInv db)
    (hbound : ∀ sub r, findSubscription db i = some sub → sub.usage.get? rt = some r →
      r.limit = -1 ∨ r.current + inc ≤ r.limit) :
    usageInv db' := by
  unfold updateUsage at h
  split at h
  · exact absurd h (by simp)
  case _ sub hfind =>
    split at h
    · injection h with h
      subst h
      exact hdb
    case _ r hget =>
      injection h with h
      subst h
      apply usageInv_save db _ hdb
      intro e he
      rcases Usage.entries_set _ _ _ _ he with hmem | he
      · exact hdb sub (List.mem_of_find?_eq_some hfind) e hmem
      · subst he
        exact hbound sub r hfind hget

theorem checkUsageLimit_allowed_bound (db : DB) (i : Nat) (rt : String)
    (h : (checkUsageLimit db i rt).allowed = true) :
    ∀ sub r, findSubscription db i = some sub → sub.usage.get? rt = some r →
      r.limit = -1 ∨ r.current + 1 ≤ r.limit := by
  intro sub r hfind hget
  simp only [checkUsageLimit, hfind, hget] at h
  split_ifs at h with h1 h2
  · left
    exact eq_of_beq h1
  · right
    omega

theorem usageInv_checkAndReserve (db : DB) (i : Nat) (rt : String)
    (hdb : usageInv db) : usageInv (checkAndReserve db i rt).2 := by
  unfold checkAndReserve
  by_cases hall : (checkUsageLimit db i rt).allowed = true
  · simp only [hall, if_true]
    cases hup : updateUsage db i rt 1 with
    | ok db' =>
      have hinv := usageInv_updateUsage db i rt 1 db' hup hdb
        (checkUsageLimit_allowed_bound db i rt hall)
      cases hsub : subUsage db' i rt <;> simp [hsub, hinv]
    | error e => simpa using hdb
  · rw [if_neg hall]
    cases hc : (checkUsageLimit db i rt).current <;>
      cases hl : (checkUsageLimit db i rt).limit <;> simpa using hdb

theorem usageInv_applyUsageOp (db : DB) (op : UsageOp) (hdb : usageInv db) :
    usageInv (applyUsageOp db op) := by
  cases op with
  | reserve i rt => exact usageInv_checkAndReserve db i rt hdb
  | rel i rt =>
    unfold applyUsageOp release
    cases hup : updateUsage db i rt (-1) with
    | ok db' =>
      simp only [hup]
      exact usageInv_updateUsage db i rt (-1) db' hup hdb
        (by
          intro sub r hfind hget
          rcases hdb sub (List.mem_of_find?_eq_some hfind) r (Usage.get?_mem _ _ _ hget) with h1 | h2
          · left
            exact h1
          · right
            omega)
    | error e =>
      simp only [hup]
      exact hdb

theorem usageInv_foldl (ops : List UsageOp) (db : DB) (hdb : usageInv db) :
    usageInv (ops.foldl applyUsageOp db) := by
  induction ops generalizing db with
  | nil => exact hdb
  | cons op tl ih => exact ih _ (usageInv_applyUsageOp db op hdb)

/-! ### Claim C1 -/

/-- C1: with a finite limit L, the realized `checkAndReserve`
(`checkUsageLimit` then `updateUsage`, unit amount) increments the
counter exactly when the incremented value stays at or below L,
answering allowed with the new counter value, and otherwise answers
denied carrying the stored current and limit with the state unchanged;
the invariant current at or below limit is preserved by every sequence
of usage operations; and with limit 2 starting from 0, two reserves
succeed reaching 2 and a third is denied with current 2 and limit 2. -/
theorem C1_checkAndReserve_conditional_increment :
    (∀ db i rt sub c L, findSubscription db i = some sub →
        sub.usage.get? rt = some ⟨c, L⟩ → L ≠ -1 →
        ((c + 1 ≤ L → ∃ db', checkAndReserve db i rt = (.allowed (c + 1), db') ∧
            subUsage db' i rt = some ⟨c + 1, L⟩) ∧
         (L < c + 1 → checkAndReserve db i rt = (.denied c L, db)))) ∧
    (∀ (db : DB) (ops : List UsageOp), usageInv db →
        usageInv (ops.foldl applyUsageOp db)) ∧
    ((checkAndReserve demoDB 1 "projects").1 = .allowed 1 ∧
     (checkAndReserve (checkAndReserve demoDB 1 "projects").2 1 "projects").1 = .allowed 2 ∧
     (checkAndReserve (checkAndReserve (checkAndReserve demoDB 1 "projects").2 1 "projects").2 1 "projects").1 = .denied 2 2 ∧
     subUsage (checkAndReserve (checkAndReserve (checkAndReserve demoDB 1 "projects").2 1 "projects").2 1 "projects").2 1 "projects" = some ⟨2, 2⟩) := by
  refine ⟨?_, fun db ops h => usageInv_foldl ops db h, by decide⟩
  intro db i rt sub c L hfind hget hL
  constructor
  · intro hle
    have hlt : c < L := by omega
    have hcheck : checkUsageLimit db i rt =
        { allowed := true, reason := "Within limit", current := none, limit := none } := by
      simp only [checkUsageLimit, hfind, hget]
      rw [if_neg (by simpa using hL), if_pos hlt]
    have hup : updateUsage db i rt 1 =
        .ok (saveSubscription db { sub with usage := sub.usage.set rt ⟨c + 1, L⟩ }) := by
      simp only [updateUsage, hfind, hget]
    have hfind' : findSubscription
        (saveSubscription db { sub with usage := sub.usage.set rt ⟨c + 1, L⟩ }) i =
        some { sub with usage := sub.usage.set rt ⟨c + 1, L⟩ } :=
      findSubscription_save db i sub _ hfind rfl
    have hsu : subUsage (saveSubscription db { sub with usage := sub.usage.set rt ⟨c + 1, L⟩ }) i rt =
        some ⟨c + 1, L⟩ := by
      simp only [subUsage, hfind', Option.bind_some]
      exact Usage.get?_set_self sub.usage rt ⟨c, L⟩ ⟨c + 1, L⟩ hget
    refine ⟨_, ?_, hsu⟩
    simp only [checkAndReserve, hcheck, if_true, hup, hsu]
  · intro hgt
    have hnlt : ¬ c < L := by omega
    have hcheck : checkUsageLimit db i rt =
        { allowed := false, reason := "Usage limit exceeded",
          current := some c, limit := some L } := by
      simp only [checkUsageLimit, hfind, hget]
      rw [if_neg (by simpa using hL), if_neg hnlt]
    simp only [checkAndReserve, hcheck]
    rfl

/-- C1 witness: a concrete successful reserve obtained from the claim
theorem at the scenario database. -/
theorem C1_checkAndReserve_conditional_increment_witness :
    ∃ db', checkAndReserve demoDB 1 "projects" = (.allowed 1, db') ∧
      subUsage db' 1 "projects" = some ⟨1, 2⟩ :=
  (C1_checkAndReserve_conditional_increment.1 demoDB 1 "projects" demoSub 0 2
    (by rfl) (by rfl) (by decide)).1 (by decide)

/-! ### Claim C3 -/

/-- C3 counterexample: applying the transition cancelled to active
through `updateSubscriptionStatus` on a cancelled subscription does not
fail with Conflict and does mutate the record: the call succeeds, the
stored status becomes active, and the state differs from the original. -/
theorem C3_cancelled_to_active_counterexample :
    (updateSubscriptionStatus cancelledDB 0 1 "active" none).toOption.map
        (fun db' => subStatus db' 1) = some (some "active") ∧
    (updateSubscriptionStatus cancelledDB 0 1 "active" none).toOption ≠ some cancelledDB ∧
    (updateSubscriptionStatus cancelledDB 0 1 "active" none).toOption ≠ none := by
  refine ⟨by decide, by decide, by decide⟩

/-- C3 amended: `updateSubscriptionStatus` performs no edge-set
validation at all.  It never returns Conflict; for any stored
subscription it applies whatever target status is requested — including
cancelled to active — setting the status and appending one history
entry; only a missing subscription id errors, with NotFound. -/
theorem C3_no_transition_guard (db : DB) (now : Int) (i : Nat)
    (st : String) (details : Option String) :
    updateSubscriptionStatus db now i st details ≠ .error .conflict ∧
    (∀ sub, findSubscription db i = some sub →
      ∃ db', updateSubscriptionStatus db now i st details = .ok db' ∧
        subStatus db' i = some st ∧
        (subHistory db' i).map List.length = some (sub.history.length + 1)) := by
  constructor
  · intro h
    simp only [updateSubscriptionStatus] at h
    split at h
    · exact absurd h (by simp)
    · exact absurd h (by simp)
  · intro sub hfind
    simp only [updateSubscriptionStatus, hfind]
    have hs := findSubscription_save db i sub (statusUpdatedSub sub now st details) hfind rfl
    refine ⟨_, rfl, ?_, ?_⟩
    · rw [subStatus, hs]
      rfl
    · rw [subHistory, hs]
      simp [statusUpdatedSub]

/-- C3 amended witness: the cancelled-to-active instance of the amended
theorem at the concrete database. -/
theorem C3_no_transition_guard_witness :
    ∃ db', updateSubscriptionStatus cancelledDB 0 1 "active" none = .ok db' ∧
      subStatus db' 1 = some "active" ∧
      (subHistory db' 1).map List.length = some 2 :=
  (C3_no_transition_guard cancelledDB 0 1 "active" none).2
    { demoSub with status := "cancelled" } (by rfl)

/-! ### Claim C9 -/

/-- C9 counterexample: a release on a counter standing at 0 drives it to
-1: `updateUsage` applies the decrement with no floor, so the claimed
invariant current at least 0 fails after one release. -/
theorem C9_release_below_zero_counterexample :
    (release demoDB 1 "projects").toOption.map (fun db' => subUsage db' 1 "projects") =
      some (some ⟨-1, 2⟩) := by
  decide

/-- C9 amended: release (realized as `updateUsage` with increment -1)
subtracts one from the stored counter unconditionally, with no floor at
0: the resulting counter is always the previous value minus one, so
current can become negative. -/
theorem C9_release_no_floor (db : DB) (i : Nat) (rt : String)
    (sub : Subscription) (u : UsageEntry)
    (hfind : findSubscription db i = some sub) (hget : sub.usage.get? rt = some u) :
    ∃ db', release db i rt = .ok db' ∧
      subUsage db' i rt = some ⟨u.current - 1, u.limit⟩ := by
  have hup : release db i rt =
      .ok (saveSubscription db { sub with usage := sub.usage.set rt ⟨u.current + (-1), u.limit⟩ }) := by
    simp only [release, updateUsage, hfind, hget]
  have hfind' := findSubscription_save db i sub
    { sub with usage := sub.usage.set rt ⟨u.current + (-1), u.limit⟩ } hfind rfl
  refine ⟨_, hup, ?_⟩
  simp only [subUsage, hfind', Option.some_bind]
  exact Usage.get?_set_self sub.usage rt u ⟨u.current + (-1), u.limit⟩ hget

/-- C9 amended witness: releasing from 0 at the concrete database yields
-1. -/
theorem C9_release_no_floor_witness :
    ∃ db', release demoDB 1 "projects" = .ok db' ∧
      subUsage db' 1 "projects" = some ⟨0 - 1, 2⟩ :=
  C9_release_no_floor demoDB 1 "projects" demoSub ⟨0, 2⟩ (by rfl) (by rfl)

/-! ### Claim C10 -/

/-- C10: for every call to `updateSubscriptionStatus` on a stored
subscription, the single appended history entry has action cancelled
exactly when the target status is cancelled, and action activated for
every other target status (paused, past_due, trialing included). -/
theorem C10_history_action_collapse (db : DB) (now : Int) (i : Nat)
    (st : String) (details : Option String) (sub : Subscription)
    (hfind : findSubscription db i = some sub) :
    ∃ db', updateSubscriptionStatus db now i st details = .ok db' ∧
      subHistory db' i = some (sub.history ++
        [{ action := if st == "cancelled" then "cancelled" else "activated"
           details := details.getD ("Status changed from " ++ sub.status ++ " to " ++ st) }]) := by
  simp only [updateSubscriptionStatus, hfind]
  have hs := findSubscription_save db i sub (statusUpdatedSub sub now st details) hfind rfl
  refine ⟨_, rfl, ?_⟩
  rw [subHistory, hs]
  rfl

/-- C10 witness: a transition to paused is logged with action activated. -/
theorem C10_history_action_collapse_witness :
    ∃ db', updateSubscriptionStatus demoDB 0 1 "paused" none = .ok db' ∧
      subHistory db' 1 = some (demoSub.history ++
        [{ action := "activated", details := "Status changed from trialing to paused" }]) := by
  have h := C10_history_action_collapse demoDB 0 1 "paused" none demoSub (by rfl)
  simpa using h

/-! ### Claim C6 -/

/-- C6: a webhook event whose payload id matches no stored record is an
orphan: every modelled handler acknowledges it with success and leaves
the entire state untouched, and an unrecognized event name falls to the
logged default branch with success and no mutation. -/
theorem C6_orphan_events_acknowledged :
    (∀ (db : DB) (now : Int) (name : String) (flag : Bool),
        handleWebhook db now (.other name) flag = (db, .ok ())) ∧
    (∀ (db : DB) (now : Int) (d : PaymentEventData) (flag : Bool),
        findPaymentByRzpId db d.paymentId = none →
        handleWebhook db now (.paymentCaptured d) flag = (db, .ok ())) ∧
    (∀ (db : DB) (now : Int) (d : SubEventData) (flag : Bool),
        findSubByRzpId db d.subId = none →
        handleWebhook db now (.subscriptionActivated d) flag = (db, .ok ())) ∧
    (∀ (db : DB) (now : Int) (d : ChargedEventData) (flag : Bool),
        findSubByRzpId db d.subId = none →
        handleWebhook db now (.subscriptionCharged d) flag = (db, .ok ())) ∧
    (∀ (db : DB) (now : Int) (d : SubEventData) (flag : Bool),
        findSubByRzpId db d.subId = none →
        handleWebhook db now (.subscriptionCancelled d) flag = (db, .ok ())) := by
  refine ⟨fun db now name flag => rfl, ?_, ?_, ?_, ?_⟩ <;>
  · intro db now d flag h
    simp [handleWebhook, handlePaymentCaptured, handleSubscriptionActivated,
      handleSubscriptionCharged, handleSubscriptionCancelled, h]

/-- C6 witness: an activated event for an unknown external subscription
id on the empty database is acknowledged with no mutation. -/
theorem C6_orphan_events_acknowledged_witness :
    handleWebhook emptyDB 0 (.subscriptionActivated ⟨"sub_unknown", 5⟩) false =
      (emptyDB, .ok ()) :=
  C6_orphan_events_acknowledged.2.2.1 emptyDB 0 ⟨"sub_unknown", 5⟩ false (by rfl)

/-! ### Claim C4 -/

/-- C4 counterexample: the signature comparison of
`verifyWebhookSignature` is the plain string equality operator, not a
constant-time comparison (there is no timingSafeEqual in the source);
the remaining behavior of the claim does hold at this concrete input: a
mismatched signature is rejected with AuthError and no state change. -/
theorem C4_not_constant_time_counterexample :
    verifyWebhookSignature_comparesConstantTime = false ∧
    verifyWebhookSignature (fun _ body => body) "secret" "payload" "payload" = true ∧
    webhookIngest (fun _ body => body) "secret" demoDB 0 (.other "evt")
        "payload" "tampered" false = (demoDB, .error .authError) := by
  refine ⟨rfl, rfl, by decide⟩

/-- C4 amended: webhook ingestion computes the HMAC-SHA256 digest of the
raw payload under the shared secret and compares it to the received
signature with plain string equality (not constant time); whenever the
digest differs from the received signature the event is rejected with
AuthError, no handler runs, and the state is returned unchanged. -/
theorem C4_bad_signature_rejected (hmac : String → String → String)
    (secret : String) (db : DB) (now : Int) (ev : WebhookEvent)
    (body sig : String) (flag : Bool) (h : hmac secret body ≠ sig) :
    webhookIngest hmac secret db now ev body sig flag = (db, .error .authError) := by
  have hb : (hmac secret body == sig) = false := by
    simpa using h
  simp [webhookIngest, verifyWebhookSignature, hb]

/-- C4 amended witness: a concrete mismatched signature is rejected with
AuthError and an unchanged state. -/
theorem C4_bad_signature_rejected_witness :
    webhookIngest (fun _ body => body) "secret" demoDB 0
      (.subscriptionActivated ⟨"sub_demo", 1700⟩) "payload" "tampered" false =
      (demoDB, .error .authError) :=
  C4_bad_signature_rejected (fun _ body => body) "secret" demoDB 0
    (.subscriptionActivated ⟨"sub_demo", 1700⟩) "payload" "tampered" false (by decide)

/-! ### Claim C7 -/

/-- C7: the entitlement of a user is the stored features and quota
snapshot of their subscription exactly when they have one with status
active or trialing that is not past its end date, and the hard-coded
free-tier constant otherwise; the resolver is a pure function of the
stored subscription state. -/
theorem C7_entitlement_resolution :
    (∀ (db : DB) (now : Int) (uid : Nat),
        (∀ s ∈ db.subscriptions,
          ¬(s.userId = uid ∧ (s.status = "active" ∨ s.status = "trialing"))) →
        getEntitlement db now uid = FREE_TIER) ∧
    (∀ (db : DB) (now : Int) (uid : Nat) (sub : Subscription),
        getUserActiveSubscription db uid = some sub →
        (sub.userId = uid ∧ (sub.status = "active" ∨ sub.status = "trialing")) ∧
        (pastEndDate sub now = false →
          getEntitlement db now uid = { features := sub.features, quotas := sub.usage }) ∧
        (pastEndDate sub now = true → getEntitlement db now uid = FREE_TIER)) := by
  constructor
  · intro db now uid h
    have hn : getUserActiveSubscription db uid = none := by
      unfold getUserActiveSubscription
      rw [List.find?_eq_none]
      intro x hx
      have hnx := h x hx
      simp only [Bool.and_eq_true, Bool.or_eq_true, beq_iff_eq]
      tauto
    simp [getEntitlement, hn]
  · intro db now uid sub hfind
    have h' : db.subscriptions.find? (fun s =>
        s.userId == uid && (s.status == "active" || s.status == "trialing")) = some sub := hfind
    have h1 := @List.find?_some Subscription
      (fun s => s.userId == uid && (s.status == "active" || s.status == "trialing")) sub _ h'
    refine ⟨by simpa using h1, ?_, ?_⟩
    · intro hp
      simp [getEntitlement, hfind, hp]
    · intro hp
      simp [getEntitlement, hfind, hp]

/-- C7 witness: the trialing demo subscription with no end date resolves
to its own stored snapshot. -/
theorem C7_entitlement_resolution_witness :
    (demoSub.userId = 7 ∧ (demoSub.status = "active" ∨ demoSub.status = "trialing")) ∧
    (pastEndDate demoSub 0 = false →
      getEntitlement demoDB 0 7 = { features := demoSub.features, quotas := demoSub.usage }) ∧
    (pastEndDate demoSub 0 = true → getEntitlement demoDB 0 7 = FREE_TIER) :=
  C7_entitlement_resolution.2 demoDB 0 7 demoSub (by rfl)

/-! ### Claim C5 -/

/-- C5 counterexample: a trialing subscription receiving
subscription.activated ends with TWO new history entries (one pushed by
`updateSubscriptionStatus`, one pushed inline by the handler), not
exactly one, and its `nextBillingDate` is not updated from the payload
period end (it stays unset). -/
theorem C5_activated_counterexample :
    (subHistory (handleSubscriptionActivated demoDB 0 ⟨"sub_demo", 1700⟩ false).1 1).map
        List.length = some 3 ∧
    ¬((subHistory (handleSubscriptionActivated demoDB 0 ⟨"sub_demo", 1700⟩ false).1 1).map
        List.length = some 2) ∧
    (findSubscription (handleSubscriptionActivated demoDB 0 ⟨"sub_demo", 1700⟩ false).1 1).map
        (fun s => s.nextBillingDate) = some none ∧
    subStatus (handleSubscriptionActivated demoDB 0 ⟨"sub_demo", 1700⟩ false).1 1 =
      some "active" := by
  refine ⟨by decide, by decide, by decide, by decide⟩

/-- C5 amended: processing subscription.activated for a stored
subscription sets its status to active and appends two history entries,
both with action activated (one from `updateSubscriptionStatus`, one
pushed inline by the handler); the subscription's own `nextBillingDate`
is left unchanged, and the payload period end is written only to the
user's `subscriptionExpiry`. -/
theorem C5_activated_two_history_entries (db : DB) (now : Int) (d : SubEventData)
    (sub : Subscription) (u : UserRec)
    (hfindr : findSubByRzpId db d.subId = some sub)
    (hfind : findSubscription db sub.id = some sub)
    (hu : findUser db sub.userId = some u) :
    ∃ db', handleSubscriptionActivated db now d false = (db', .ok ()) ∧
      subStatus db' sub.id = some "active" ∧
      subHistory db' sub.id = some (sub.history ++
        [{ action := "activated"
           details := "Status changed from " ++ sub.status ++ " to " ++ "active" },
         { action := "activated", details := "Subscription activated" }]) ∧
      (findSubscription db' sub.id).map (fun s => s.nextBillingDate) =
        some sub.nextBillingDate ∧
      (findUser db' sub.userId).map (fun x => (x.subscriptionStatus, x.subscriptionExpiry)) =
        some ("active", some d.currentEnd) := by
  have hu1 : findUser (saveSubscription db (statusUpdatedSub sub now "active" none))
      sub.userId = some u := hu
  have hps : findSubscription
      (saveUser (saveSubscription db (statusUpdatedSub sub now "active" none))
        (userWithSubscriptionStatus u "active" (some d.currentEnd))) sub.id =
      some (statusUpdatedSub sub now "active" none) :=
    findSubscription_save db sub.id sub (statusUpdatedSub sub now "active" none) hfind rfl
  have hrun : handleSubscriptionActivated db now d false =
      (addNotification
        (saveSubscription
          (saveUser (saveSubscription db (statusUpdatedSub sub now "active" none))
            (userWithSubscriptionStatus u "active" (some d.currentEnd)))
          { statusUpdatedSub sub now "active" none with
              history := (statusUpdatedSub sub now "active" none).history ++
                [{ action := "activated", details := "Subscription activated" }] })
        (activatedNotif sub), .ok ()) := by
    simp only [handleSubscriptionActivated, hfindr, updateSubscriptionStatus, hfind,
      userUpdateSubscriptionStatus, hu1, pushHistory, hps, Bool.false_eq_true, if_false]
  have hfin : findSubscription
      (saveSubscription
        (saveUser (saveSubscription db (statusUpdatedSub sub now "active" none))
          (userWithSubscriptionStatus u "active" (some d.currentEnd)))
        { statusUpdatedSub sub now "active" none with
            history := (statusUpdatedSub sub now "active" none).history ++
              [{ action := "activated", details := "Subscription activated" }] })
      sub.id = some { statusUpdatedSub sub now "active" none with
        history := (statusUpdatedSub sub now "active" none).history ++
          [{ action := "activated", details := "Subscription activated" }] } :=
    findSubscription_save _ sub.id (statusUpdatedSub sub now "active" none) _ hps rfl
  have hfu : findUser
      (saveUser (saveSubscription db (statusUpdatedSub sub now "active" none))
        (userWithSubscriptionStatus u "active" (some d.currentEnd))) sub.userId =
      some (userWithSubscriptionStatus u "active" (some d.currentEnd)) :=
    findUser_save _ sub.userId u _ hu1 rfl
  refine ⟨_, hrun, ?_, ?_, ?_, ?_⟩
  · rw [subStatus, findSubscription_addNotification, hfin]
    rfl
  · rw [subHistory, findSubscription_addNotification, hfin]
    simp [statusUpdatedSub]
  · rw [findSubscription_addNotification, hfin]
    rfl
  · rw [findUser_addNotification, findUser_saveSubscription, hfu]
    rfl

/-- C5 amended witness: the concrete trialing subscription run through
the amended theorem. -/
theorem C5_activated_two_history_entries_witness :
    ∃ db', handleSubscriptionActivated demoDB 0 ⟨"sub_demo", 1700⟩ false = (db', .ok ()) ∧
      subStatus db' 1 = some "active" ∧
      subHistory db' 1 = some (demoSub.history ++
        [{ action := "activated"
           details := "Status changed from " ++ demoSub.status ++ " to " ++ "active" },
         { action := "activated", details := "Subscription activated" }]) ∧
      (findSubscription db' 1).map (fun s => s.nextBillingDate) = some demoSub.nextBillingDate ∧
      (findUser db' 7).map (fun x => (x.subscriptionStatus, x.subscriptionExpiry)) =
        some ("active", some 1700) :=
  C5_activated_two_history_entries demoDB 0 ⟨"sub_demo", 1700⟩ demoSub demoUser
    (by rfl) (by rfl) (by rfl)

/-! ### Claim C8 -/

/-- C8 counterexample: when the user notification raised by a successful
activation fails, webhook processing of the event does not complete
successfully — `handleWebhook` rethrows the error — even though the
persisted subscription state does reflect the executed transition. -/
theorem C8_notify_failure_counterexample :
    (handleWebhook demoDB 0 (.subscriptionActivated ⟨"sub_demo", 1700⟩) true).2 =
      .error .transientError ∧
    subStatus (handleWebhook demoDB 0 (.subscriptionActivated ⟨"sub_demo", 1700⟩) true).1 1 =
      some "active" ∧
    (subHistory (handleWebhook demoDB 0 (.subscriptionActivated ⟨"sub_demo", 1700⟩) true).1 1).map
      List.length = some 3 := by
  refine ⟨by decide, by decide, by decide⟩

/-- C8 amended: a failing outbound notification does not roll back the
executed transition — the persisted state keeps the new status, the
appended history entries and the updated user record — but the failure
propagates out of the handler (handleWebhook rethrows), so processing of
the event reports an error rather than completing successfully. -/
theorem C8_notify_failure_keeps_transition (db : DB) (now : Int) (d : SubEventData)
    (sub : Subscription) (u : UserRec)
    (hfindr : findSubByRzpId db d.subId = some sub)
    (hfind : findSubscription db sub.id = some sub)
    (hu : findUser db sub.userId = some u) :
    ∃ db', handleWebhook db now (.subscriptionActivated d) true =
        (db', .error .transientError) ∧
      subStatus db' sub.id = some "active" ∧
      (subHistory db' sub.id).map List.length = some (sub.history.length + 2) ∧
      (findUser db' sub.userId).map (fun x => (x.subscriptionStatus, x.subscriptionExpiry)) =
        some ("active", some d.currentEnd) := by
  have hu1 : findUser (saveSubscription db (statusUpdatedSub sub now "active" none))
      sub.userId = some u := hu
  have hps : findSubscription
      (saveUser (saveSubscription db (statusUpdatedSub sub now "active" none))
        (userWithSubscriptionStatus u "active" (some d.currentEnd))) sub.id =
      some (statusUpdatedSub sub now "active" none) :=
    findSubscription_save db sub.id sub (statusUpdatedSub sub now "active" none) hfind rfl
  have hrun : handleWebhook db now (.subscriptionActivated d) true =
      (saveSubscription
        (saveUser (saveSubscription db (statusUpdatedSub sub now "active" none))
          (userWithSubscriptionStatus u "active" (some d.currentEnd)))
        { statusUpdatedSub sub now "active" none with
            history := (statusUpdatedSub sub now "active" none).history ++
              [{ action := "activated", details := "Subscription activated" }] },
        .error .transientError) := by
    simp only [handleWebhook, handleSubscriptionActivated, hfindr, updateSubscriptionStatus,
      hfind, userUpdateSubscriptionStatus, hu1, pushHistory, hps, if_true]
  have hfin : findSubscription
      (saveSubscription
        (saveUser (saveSubscription db (statusUpdatedSub sub now "active" none))
          (userWithSubscriptionStatus u "active" (some d.currentEnd)))
        { statusUpdatedSub sub now "active" none with
            history := (statusUpdatedSub sub now "active" none).history ++
              [{ action := "activated", details := "Subscription activated" }] })
      sub.id = some { statusUpdatedSub sub now "active" none with
        history := (statusUpdatedSub sub now "active" none).history ++
          [{ action := "activated", details := "Subscription activated" }] } :=
    findSubscription_save _ sub.id (statusUpdatedSub sub now "active" none) _ hps rfl
  have hfu : findUser
      (saveUser (saveSubscription db (statusUpdatedSub sub now "active" none))
        (userWithSubscriptionStatus u "active" (some d.currentEnd))) sub.userId =
      some (userWithSubscriptionStatus u "active" (some d.currentEnd)) :=
    findUser_save _ sub.userId u _ hu1 rfl
  refine ⟨_, hrun, ?_, ?_, ?_⟩
  · rw [subStatus, hfin]
    rfl
  · rw [subHistory, hfin]
    simp [statusUpdatedSub]
  · rw [findUser_saveSubscription, hfu]
    rfl

/-- C8 amended witness: the concrete trialing subscription with a
failing notification keeps its executed transition while the processing
outcome is the propagated error. -/
theorem C8_notify_failure_keeps_transition_witness :
    ∃ db', handleWebhook demoDB 0 (.subscriptionActivated ⟨"sub_demo", 1700⟩) true =
        (db', .error .transientError) ∧
      subStatus db' 1 = some "active" ∧
      (subHistory db' 1).map List.length = some (demoSub.history.length + 2) ∧
      (findUser db' 7).map (fun x => (x.subscriptionStatus, x.subscriptionExpiry)) =
        some ("active", some 1700) :=
  C8_notify_failure_keeps_transition demoDB 0 ⟨"sub_demo", 1700⟩ demoSub demoUser
    (by rfl) (by rfl) (by rfl)

/-! ### Claim C2 -/

/-- C2 counterexample: delivering the same subscription.charged event
twice does not leave the final state unchanged: the Payment row is not
duplicated (exactly one with the external payment id after both
deliveries), but the second delivery appends another history entry and
creates another notification, so the state after the replay differs
from the state after the first application. -/
theorem C2_replay_counterexample :
    (handleSubscriptionCharged (handleSubscriptionCharged demoDB 0 demoCharge false).1
        0 demoCharge false).1 ≠ (handleSubscriptionCharged demoDB 0 demoCharge false).1 ∧
    countPayments (handleSubscriptionCharged demoDB 0 demoCharge false).1 "pay_X" = 1 ∧
    countPayments (handleSubscriptionCharged (handleSubscriptionCharged demoDB 0 demoCharge false).1
        0 demoCharge false).1 "pay_X" = 1 ∧
    ((handleSubscriptionCharged demoDB 0 demoCharge false).1).notifications.length = 1 ∧
    ((handleSubscriptionCharged (handleSubscriptionCharged demoDB 0 demoCharge false).1
        0 demoCharge false).1).notifications.length = 2 := by
  refine ⟨by decide, by decide, by decide, by decide, by decide⟩

/-- C2 amended: replaying subscription.charged with the same external
payment id never duplicates the Payment row — the first successful
application creates exactly one new Payment with that id and the replay
leaves the payments collection unchanged — but the replay is not a
no-op: it succeeds and creates another notification (and another
renewed history entry), so the final state is not identical to the
state after the first application. -/
theorem C2_replay_payment_dedup (db : DB) (now : Int) (d : ChargedEventData)
    (sub : Subscription) (u : UserRec)
    (hfindr : findSubByRzpId db d.subId = some sub)
    (hu : findUser db sub.userId = some u)
    (hpay : findPaymentByRzpId db d.paymentId = none) :
    ∃ db₁ db₂,
      handleSubscriptionCharged db now d false = (db₁, .ok ()) ∧
      handleSubscriptionCharged db₁ now d false = (db₂, .ok ()) ∧
      countPayments db₁ d.paymentId = countPayments db d.paymentId + 1 ∧
      db₂.payments = db₁.payments ∧
      db₂.notifications.length = db₁.notifications.length + 1 := by
  have h2a : findUser (saveSubscription db (chargeRenewedSub sub d)) sub.userId = some u := hu
  have h3a : findPaymentByRzpId (saveUser (saveSubscription db (chargeRenewedSub sub d)) (userWithSubscriptionStatus u "active" (some d.currentEnd))) d.paymentId = none := hpay
  have hrun1 : handleSubscriptionCharged db now d false = ((addNotification (addPayment (saveUser (saveSubscription db (chargeRenewedSub sub d)) (userWithSubscriptionStatus u "active" (some d.currentEnd))) (chargePaymentRec sub d (saveUser (saveSubscription db (chargeRenewedSub sub d)) (userWithSubscriptionStatus u "active" (some d.currentEnd))).payments.length)) (chargeNotif sub d)), .ok ()) := by
    simp only [handleSubscriptionCharged, hfindr, userUpdateSubscriptionStatus, h2a, h3a,
      Bool.false_eq_true, if_false]
  have h1b : findSubByRzpId (addNotification (addPayment (saveUser (saveSubscription db (chargeRenewedSub sub d)) (userWithSubscriptionStatus u "active" (some d.currentEnd))) (chargePaymentRec sub d (saveUser (saveSubscription db (chargeRenewedSub sub d)) (userWithSubscriptionStatus u "active" (some d.currentEnd))).payments.length)) (chargeNotif sub d)) d.subId = some (chargeRenewedSub sub d) :=
    findSubByRzpId_save db d.subId sub (chargeRenewedSub sub d) hfindr rfl rfl
  have h2b : findUser (saveSubscription (addNotification (addPayment (saveUser (saveSubscription db (chargeRenewedSub sub d)) (userWithSubscriptionStatus u "active" (some d.currentEnd))) (chargePaymentRec sub d (saveUser (saveSubscription db (chargeRenewedSub sub d)) (userWithSubscriptionStatus u "active" (some d.currentEnd))).payments.length)) (chargeNotif sub d)) (chargeRenewedSub (chargeRenewedSub sub d) d)) (chargeRenewedSub sub d).userId = some (userWithSubscriptionStatus u "active" (some d.currentEnd)) :=
    findUser_save (saveSubscription db (chargeRenewedSub sub d)) sub.userId u (userWithSubscriptionStatus u "active" (some d.currentEnd)) h2a rfl
  have h3b : findPaymentByRzpId (saveUser (saveSubscription (addNotification (addPayment (saveUser (saveSubscription db (chargeRenewedSub sub d)) (userWithSubscriptionStatus u "active" (some d.currentEnd))) (chargePaymentRec sub d (saveUser (saveSubscription db (chargeRenewedSub sub d)) (userWithSubscriptionStatus u "active" (some d.currentEnd))).payments.length)) (chargeNotif sub d)) (chargeRenewedSub (chargeRenewedSub sub d) d)) (userWithSubscriptionStatus (userWithSubscriptionStatus u "active" (some d.currentEnd)) "active" (some d.currentEnd))) d.paymentId = some (chargePaymentRec sub d (saveUser (saveSubscription db (chargeRenewedSub sub d)) (userWithSubscriptionStatus u "active" (some d.currentEnd))).payments.length) :=
    find?_append_single (fun t : Payment => t.razorpayPaymentId == d.paymentId) db.payments (chargePaymentRec sub d (saveUser (saveSubscription db (chargeRenewedSub sub d)) (userWithSubscriptionStatus u "active" (some d.currentEnd))).payments.length)
      hpay (by simp [chargePaymentRec])
  have hrun2 : handleSubscriptionCharged (addNotification (addPayment (saveUser (saveSubscription db (chargeRenewedSub sub d)) (userWithSubscriptionStatus u "active" (some d.currentEnd))) (chargePaymentRec sub d (saveUser (saveSubscription db (chargeRenewedSub sub d)) (userWithSubscriptionStatus u "active" (some d.currentEnd))).payments.length)) (chargeNotif sub d)) now d false = ((addNotification (saveUser (saveSubscription (addNotification (addPayment (saveUser (saveSubscription db (chargeRenewedSub sub d)) (userWithSubscriptionStatus u "active" (some d.currentEnd))) (chargePaymentRec sub d (saveUser (saveSubscription db (chargeRenewedSub sub d)) (userWithSubscriptionStatus u "active" (some d.currentEnd))).payments.length)) (chargeNotif sub d)) (chargeRenewedSub (chargeRenewedSub sub d) d)) (userWithSubscriptionStatus (userWithSubscriptionStatus u "active" (some d.currentEnd)) "active" (some d.currentEnd))) (chargeNotif (chargeRenewedSub sub d) d)), .ok ()) := by
    simp only [handleSubscriptionCharged, h1b, userUpdateSubscriptionStatus, h2b, h3b,
      Bool.false_eq_true, if_false]
  refine ⟨(addNotification (addPayment (saveUser (saveSubscription db (chargeRenewedSub sub d)) (userWithSubscriptionStatus u "active" (some d.currentEnd))) (chargePaymentRec sub d (saveUser (saveSubscription db (chargeRenewedSub sub d)) (userWithSubscriptionStatus u "active" (some d.currentEnd))).payments.length)) (chargeNotif sub d)), (addNotification (saveUser (saveSubscription (addNotification (addPayment (saveUser (saveSubscription db (chargeRenewedSub sub d)) (userWithSubscriptionStatus u "active" (some d.currentEnd))) (chargePaymentRec sub d (saveUser (saveSubscription db (chargeRenewedSub sub d)) (userWithSubscriptionStatus u "active" (some d.currentEnd))).payments.length)) (chargeNotif sub d)) (chargeRenewedSub (chargeRenewedSub sub d) d)) (userWithSubscriptionStatus (userWithSubscriptionStatus u "active" (some d.currentEnd)) "active" (some d.currentEnd))) (chargeNotif (chargeRenewedSub sub d) d)), hrun1, hrun2, ?_, rfl, ?_⟩
  · exact countPayments_append (saveUser (saveSubscription db (chargeRenewedSub sub d)) (userWithSubscriptionStatus u "active" (some d.currentEnd))) (chargePaymentRec sub d (saveUser (saveSubscription db (chargeRenewedSub sub d)) (userWithSubscriptionStatus u "active" (some d.currentEnd))).payments.length) d.paymentId (by simp [chargePaymentRec])
  · show (((addPayment (saveUser (saveSubscription db (chargeRenewedSub sub d)) (userWithSubscriptionStatus u "active" (some d.currentEnd))) (chargePaymentRec sub d (saveUser (saveSubscription db (chargeRenewedSub sub d)) (userWithSubscriptionStatus u "active" (some d.currentEnd))).payments.length)).notifications ++ [chargeNotif sub d]) ++
        [chargeNotif (chargeRenewedSub sub d) d]).length =
      ((addPayment (saveUser (saveSubscription db (chargeRenewedSub sub d)) (userWithSubscriptionStatus u "active" (some d.currentEnd))) (chargePaymentRec sub d (saveUser (saveSubscription db (chargeRenewedSub sub d)) (userWithSubscriptionStatus u "active" (some d.currentEnd))).payments.length)).notifications ++ [chargeNotif sub d]).length + 1
    simp

/-- C2 amended witness: the concrete database run through the amended
theorem. -/
theorem C2_replay_payment_dedup_witness :
    ∃ db₁ db₂,
      handleSubscriptionCharged demoDB 0 demoCharge false = (db₁, .ok ()) ∧
      handleSubscriptionCharged db₁ 0 demoCharge false = (db₂, .ok ()) ∧
      countPayments db₁ demoCharge.paymentId = countPayments demoDB demoCharge.paymentId + 1 ∧
      db₂.payments = db₁.payments ∧
      db₂.notifications.length = db₁.notifications.length + 1 :=
  C2_replay_payment_dedup demoDB 0 demoCharge demoSub demoUser (by rfl) (by rfl) (by rfl)

end Dorwel
